import Mathlib

/-
Shallow embedding of the rfat12 repository (src/main.rs): a reader for a
raw FAT12 filesystem image that extracts the contents of one named file.

Modelling conventions:
* Bytes and machine integers (u8/u16/u32/usize) are `Nat`s assumed in range;
  at every operation where the source's fixed-width arithmetic can exceed the
  width, the wrap is made explicit with `% 2^w` (release-profile wrapping
  semantics, e.g. `cluster - 2` on u16 becomes `(cluster + 65536 - 2) % 65536`).
* Rust panics (`Vec` indexing out of bounds, u16 division by zero) are
  modelled as `Except.error "...: panic"`.
* `bytemuck::from_bytes` reinterpretation of the `repr(C, packed)` structs is
  modelled as a little-endian field-by-field decode at the fixed offsets of
  the packed layout (the program targets a little-endian host).
* File-system access in `load_image` is modelled by an optional byte list
  (`none` = the file could not be opened).
* The `loop` in `read_file` is modelled with an explicit fuel parameter; fuel
  exhaustion yields a dedicated error that the source (which would simply
  keep looping) never produces.
-/

/-- Decidable equality for `Except`, so that concrete runs of the embedded
operations can be checked by `decide`. -/
instance {ε α : Type} [DecidableEq ε] [DecidableEq α] :
    DecidableEq (Except ε α)
  | Except.ok a, Except.ok b =>
    if h : a = b then Decidable.isTrue (by rw [h])
    else Decidable.isFalse (by intro hh; cases hh; exact h rfl)
  | Except.ok _, Except.error _ => Decidable.isFalse (by intro hh; cases hh)
  | Except.error _, Except.ok _ => Decidable.isFalse (by intro hh; cases hh)
  | Except.error e, Except.error f =>
    if h : e = f then Decidable.isTrue (by rw [h])
    else Decidable.isFalse (by intro hh; cases hh; exact h rfl)

/-- Little-endian 16-bit load at byte offset `i`. -/
def le16 (l : List Nat) (i : Nat) : Nat :=
  l.getD i 0 + 256 * l.getD (i + 1) 0

/-- Little-endian 32-bit load at byte offset `i`. -/
def le32 (l : List Nat) (i : Nat) : Nat :=
  l.getD i 0 + 256 * l.getD (i + 1) 0 + 65536 * l.getD (i + 2) 0 +
    16777216 * l.getD (i + 3) 0

/-- `FATBootsector` from src/main.rs: the packed boot-parameter block.
Field offsets in the 62-byte packed layout: jmp_inst 0, oem 3,
bytes_per_sector 11, sector_per_cluster 13, reserved_sectors 14,
fat_count 16, root_dir_ent 17, total_sector 19, media_descriptor_type 21,
sector_per_fat 22, sector_per_track 24, heads 26, hidden_sector 28,
large_sector_count 32, drive_number 36, reserved 37, signature 38,
volume_serial 39, volume_label 43, system_identifier 54. -/
structure FATBootsector where
  jmp_inst : List Nat
  oem : List Nat
  bytes_per_sector : Nat
  sector_per_cluster : Nat
  reserved_sectors : Nat
  fat_count : Nat
  root_dir_ent : Nat
  total_sector : Nat
  media_descriptor_type : Nat
  sector_per_fat : Nat
  sector_per_track : Nat
  heads : Nat
  hidden_sector : Nat
  large_sector_count : Nat
  drive_number : Nat
  reserved : Nat
  signature : Nat
  volume_serial : Nat
  volume_label : List Nat
  system_identifier : List Nat
deriving Repr, DecidableEq

/-- `FATDirectoryEntry` from src/main.rs: a 32-byte packed directory entry.
Offsets: name 0 (11 bytes), attributes 11, reserved 12, created_time_tenths
13, created_tile 14, created_date 16, last_accessed_data 18, high_16b_entry
20, last_modification_time 22, last_modification_date 24, low_16b_entry 26,
size 28. -/
structure FATDirectoryEntry where
  name : List Nat
  attributes : Nat
  reserved : Nat
  created_time_tenths : Nat
  created_tile : Nat
  created_date : Nat
  last_accessed_data : Nat
  high_16b_entry : Nat
  last_modification_time : Nat
  last_modification_date : Nat
  low_16b_entry : Nat
  size : Nat
deriving Repr, DecidableEq

/-- `<u8 as FATStruct>::from_bytes`: succeeds when at least one byte is
present, returning the first byte. -/
def byte_from_bytes (bytes : List Nat) : Option Nat :=
  if 1 ≤ bytes.length then some (bytes.getD 0 0) else none

/-- `<FATDirectoryEntry as FATStruct>::from_bytes`: succeeds when at least 32
bytes are present, decoding the packed little-endian layout. -/
def dirent_from_bytes (bytes : List Nat) : Option FATDirectoryEntry :=
  if 32 ≤ bytes.length then
    some
      { name := bytes.take 11
        attributes := bytes.getD 11 0
        reserved := bytes.getD 12 0
        created_time_tenths := bytes.getD 13 0
        created_tile := le16 bytes 14
        created_date := le16 bytes 16
        last_accessed_data := le16 bytes 18
        high_16b_entry := le16 bytes 20
        last_modification_time := le16 bytes 22
        last_modification_date := le16 bytes 24
        low_16b_entry := le16 bytes 26
        size := le32 bytes 28 }
  else none

/-- Fuel-indexed worker for `chunksExact` (structural recursion so that the
kernel can evaluate it); the fuel is always instantiated with the list
length. -/
def chunksExactGo (s : Nat) : Nat → List Nat → List (List Nat)
  | 0, _ => []
  | fuel + 1, l =>
    if 0 < s ∧ s ≤ l.length then l.take s :: chunksExactGo s fuel (l.drop s)
    else []

/-- `slice::chunks_exact(s)` collected to a list: consecutive chunks of
exactly `s` bytes, any trailing remainder shorter than `s` dropped. -/
def chunksExact (s : Nat) (l : List Nat) : List (List Nat) :=
  chunksExactGo s l.length l

/-- `FAT12::read_sector::<T>` from src/main.rs, with the record size and the
`FATStruct::from_bytes` decoder of `T` passed explicitly.  `start_pos` is a
u32 product (explicit wrap `% 2^32`); the addressed byte range is split into
`size`-byte chunks which are decoded and collected. -/
def read_sector {T : Type} (size : Nat) (dec : List Nat → Option T)
    (header : FATBootsector) (disk : List Nat) (lba total : Nat) :
    Except String (List T) :=
  let start_pos := lba * header.bytes_per_sector % 4294967296
  let end_pos := start_pos + total * header.bytes_per_sector
  if end_pos > disk.length then
    Except.error "read_sector out of bound"
  else
    Except.ok
      (((chunksExact size ((disk.drop start_pos).take (end_pos - start_pos))).filterMap dec))

/-- `FAT12::read_bootsector`: fails when the image is shorter than the fixed
62-byte packed header, otherwise decodes the fields at their fixed offsets. -/
def read_bootsector (data : List Nat) : Except String FATBootsector :=
  if data.length < 62 then Except.error "read_bootsector failed"
  else
    Except.ok
      { jmp_inst := data.take 3
        oem := (data.drop 3).take 8
        bytes_per_sector := le16 data 11
        sector_per_cluster := data.getD 13 0
        reserved_sectors := le16 data 14
        fat_count := data.getD 16 0
        root_dir_ent := le16 data 17
        total_sector := le16 data 19
        media_descriptor_type := data.getD 21 0
        sector_per_fat := le16 data 22
        sector_per_track := le16 data 24
        heads := le16 data 26
        hidden_sector := le32 data 28
        large_sector_count := le32 data 32
        drive_number := data.getD 36 0
        reserved := data.getD 37 0
        signature := data.getD 38 0
        volume_serial := le32 data 39
        volume_label := (data.drop 43).take 11
        system_identifier := (data.drop 54).take 8 }

/-- `FAT12::read_root_directory`: u16 arithmetic for the start LBA and the
byte size, truncating u16 division for the sector count (a u16 division by
zero is a Rust panic), then a sector read of the directory entries. -/
def read_root_directory (disk : List Nat) (header : FATBootsector) :
    Except String (List FATDirectoryEntry × Nat) :=
  if header.bytes_per_sector = 0 then
    Except.error "attempt to divide by zero: panic"
  else
    let lba := (header.reserved_sectors + header.sector_per_fat * header.fat_count) % 65536
    let size := 32 * header.root_dir_ent % 65536
    let sectors := size / header.bytes_per_sector
    let endLba := (lba + sectors) % 65536
    match read_sector 32 dirent_from_bytes header disk lba sectors with
    | Except.error e => Except.error e
    | Except.ok root => Except.ok (root, endLba)

/-- `FAT12::read_fat`: reads `sector_per_fat` sectors of raw bytes starting
at `reserved_sectors`. -/
def read_fat (header : FATBootsector) (disk : List Nat) :
    Except String (List Nat) :=
  read_sector 1 byte_from_bytes header disk header.reserved_sectors header.sector_per_fat

/-- The `FAT12` struct from src/main.rs. -/
structure FAT12 where
  disk : List Nat
  bootsector : FATBootsector
  rootdir : List FATDirectoryEntry
  rootdir_end : Nat
  fat : List Nat
deriving Repr, DecidableEq

/-- `FAT12::load_image`, with the file system modelled by an optional byte
list: `none` means the file could not be opened. -/
def load_image (file : Option (List Nat)) : Except String (List Nat) :=
  match file with
  | some data => Except.ok data
  | none => Except.error "failed to load file"

/-- `FAT12::new`: load, boot-sector parse, root-directory read, FAT read, in
that order, each failure short-circuiting the rest. -/
def FAT12.new (file : Option (List Nat)) : Except String FAT12 :=
  match load_image file with
  | Except.error e => Except.error e
  | Except.ok disk =>
    match read_bootsector disk with
    | Except.error e => Except.error e
    | Except.ok bootsector =>
      match read_root_directory disk bootsector with
      | Except.error e => Except.error e
      | Except.ok (rootdir, rootdir_end) =>
        match read_fat bootsector disk with
        | Except.error e => Except.error e
        | Except.ok fat => Except.ok ⟨disk, bootsector, rootdir, rootdir_end, fat⟩

/-- The indexed loop of `FAT12::search_file`: `i` is the next index to probe
and the second argument counts the remaining iterations (`root_dir_ent - i`).
Indexing `rootdir[i]` past the end of the vector is a Rust panic. -/
def search_go (rootdir : List FATDirectoryEntry) (name : List Nat) :
    Nat → Nat → Except String (Option FATDirectoryEntry)
  | _, 0 => Except.ok none
  | i, k + 1 =>
    match rootdir.get? i with
    | none => Except.error "index out of bounds: panic"
    | some e =>
      if e.name = name then Except.ok (some e)
      else search_go rootdir name (i + 1) k

/-- `FAT12::search_file`: scans indices `0 .. root_dir_ent - 1` of the
decoded root directory for an exact 11-byte name match. -/
def search_file (st : FAT12) (name : List Nat) :
    Except String (Option FATDirectoryEntry) :=
  search_go st.rootdir name 0 st.bootsector.root_dir_ent

/-- The FAT12 next-cluster extraction inside `FAT12::read_file`: byte index
`cluster * 3 / 2` (u16 product, explicit wrap), two bytes read from the FAT
vector (out-of-bounds indexing is a Rust panic), then the even/odd nibble
unpacking exactly as in the source. -/
def next_cluster (fat : List Nat) (cluster : Nat) : Except String Nat :=
  let fat_index := cluster * 3 % 65536 / 2
  match fat.get? fat_index, fat.get? (fat_index + 1) with
  | some b0, some b1 =>
    if cluster % 2 = 0 then
      Except.ok ((b0 ||| b1 <<< 8) &&& 0x0FFF)
    else
      Except.ok (b0 >>> 4 ||| b1 <<< 4)
  | _, _ => Except.error "index out of bounds: panic"

/-- The data-LBA computation of `FAT12::read_file`:
`rootdir_end + ((cluster - 2) * sector_per_cluster)` where the subtraction
and the product are wrapping u16 operations. -/
def data_lba (rootdir_end cluster sector_per_cluster : Nat) : Nat :=
  rootdir_end + (cluster + 65536 - 2) % 65536 * sector_per_cluster % 65536

/-- The `loop` body of `FAT12::read_file`, with explicit fuel: read one
cluster's sectors, append them to the output, resolve the next cluster from
the FAT, and stop only when the resolved value is strictly greater than
0x0FF8. -/
def read_file_go (bs : FATBootsector) (disk fat : List Nat)
    (rootdir_end : Nat) : Nat → Nat → List Nat → Except String (List Nat)
  | 0, _, _ => Except.error "read_file ran out of fuel"
  | fuel + 1, cluster, output =>
    let lba := data_lba rootdir_end cluster bs.sector_per_cluster
    match read_sector 1 byte_from_bytes bs disk (lba % 4294967296) bs.sector_per_cluster with
    | Except.error e => Except.error e
    | Except.ok data =>
      match next_cluster fat cluster with
      | Except.error e => Except.error e
      | Except.ok c =>
        if c > 0x0ff8 then Except.ok (output ++ data)
        else read_file_go bs disk fat rootdir_end fuel c (output ++ data)

/-- `FAT12::read_file`: walk the cluster chain starting at the entry's
`low_16b_entry`. -/
def read_file (st : FAT12) (entry : FATDirectoryEntry) (fuel : Nat) :
    Except String (List Nat) :=
  read_file_go st.bootsector st.disk st.fat st.rootdir_end fuel
    entry.low_16b_entry []

/-- `FAT12::parse`: lookup by name, then cluster-chain walk; a failed lookup
yields the dedicated error. -/
def parse (st : FAT12) (file : List Nat) (fuel : Nat) :
    Except String (List Nat) :=
  match search_file st file with
  | Except.error e => Except.error e
  | Except.ok (some e) => read_file st e fuel
  | Except.ok none => Except.error "Error Parse File"

/-! Concrete fixtures used to evaluate the embedded operations on explicit
inputs. -/

/-- A boot sector whose geometry fields are given and whose remaining fields
are zero. -/
def mkBoot (bps spc rsvd fc rde spf : Nat) : FATBootsector :=
  ⟨[], [], bps, spc, rsvd, fc, rde, 0, 0, spf, 0, 0, 0, 0, 0, 0, 0, 0, [], []⟩

/-- The 11 bytes of the padded short name `TEST    TXT`. -/
def testName : List Nat := [84, 69, 83, 84, 32, 32, 32, 32, 84, 88, 84]

/-- The 11 bytes of the padded short name `NOPE    TXT`. -/
def nopeName : List Nat := [78, 79, 80, 69, 32, 32, 32, 32, 84, 88, 84]

/-- A directory entry named `TEST    TXT` with first cluster 5. -/
def entryTest : FATDirectoryEntry :=
  ⟨testName, 0, 0, 0, 0, 0, 0, 0, 0, 0, 5, 0⟩

/-- A directory entry whose first-cluster field (`low_16b_entry`) is 2. -/
def entryCluster2 : FATDirectoryEntry :=
  ⟨List.replicate 11 0, 0, 0, 0, 0, 0, 0, 0, 0, 0, 2, 0⟩

/-- A directory entry whose first-cluster field (`low_16b_entry`) is 0, as
written for an empty file. -/
def entryCluster0 : FATDirectoryEntry :=
  ⟨List.replicate 11 0, 0, 0, 0, 0, 0, 0, 0, 0, 0, 0, 0⟩

/-- An opened image whose FAT links cluster 2 to the end-of-chain marker
0x0FF8: bytes per sector 4, one sector per cluster, data region anchored at
LBA 0, 8 data bytes on disk. -/
def stChain8 : FAT12 :=
  ⟨[1, 2, 3, 4, 5, 6, 7, 8], mkBoot 4 1 0 0 0 0, [], 0, [0, 0, 0, 0xF8, 0x0F]⟩

/-- Same image as `stChain8` except that the FAT links cluster 2 to the
end-of-chain marker 0x0FF9. -/
def stChain9 : FAT12 :=
  ⟨[1, 2, 3, 4, 5, 6, 7, 8], mkBoot 4 1 0 0 0 0, [], 0, [0, 0, 0, 0xF9, 0x0F]⟩

/-- An opened image whose root directory holds the single entry
`TEST    TXT`, with `root_dir_ent = 1`. -/
def stLookup : FAT12 := ⟨[], mkBoot 512 1 1 2 1 9, [entryTest], 0, []⟩

/-- Boot sector with 64 bytes per sector and one root directory entry: the
32-byte directory size is not a multiple of the sector size. -/
def hdrOdd : FATBootsector := mkBoot 64 1 0 0 1 0

/-- The opened image obtained from `hdrOdd` on an empty disk: the truncating
sector count read zero directory entries. -/
def stOdd : FAT12 := ⟨[], hdrOdd, [], 0, []⟩

/-- A tiny opened image (1 byte per sector, empty disk) used to run
`read_file` on an entry whose first cluster is 0. -/
def stTiny : FAT12 := ⟨[], mkBoot 1 1 0 0 0 0, [], 0, []⟩

/-! Helper lemmas about the embedded operations. -/

theorem read_sector_eq {T : Type} (size : Nat) (dec : List Nat → Option T)
    (header : FATBootsector) (disk : List Nat) (lba total : Nat) :
    read_sector size dec header disk lba total =
      if lba * header.bytes_per_sector % 4294967296 +
          total * header.bytes_per_sector > disk.length then
        Except.error "read_sector out of bound"
      else
        Except.ok
          ((chunksExact size
            ((disk.drop (lba * header.bytes_per_sector % 4294967296)).take
              (total * header.bytes_per_sector))).filterMap dec) := by
  unfold read_sector
  have h1 : lba * header.bytes_per_sector % 4294967296 +
      total * header.bytes_per_sector -
      lba * header.bytes_per_sector % 4294967296 =
      total * header.bytes_per_sector := by omega
  simp only [h1]

theorem chunksExactGo_length (s : Nat) (hs : 0 < s) :
    ∀ (fuel : Nat) (l : List Nat), l.length ≤ fuel →
      (chunksExactGo s fuel l).length = l.length / s := by
  intro fuel
  induction fuel with
  | zero =>
    intro l hl
    have h0 : l.length = 0 := by omega
    simp [chunksExactGo, h0]
  | succ n ih =>
    intro l hl
    rw [chunksExactGo]
    by_cases h : s ≤ l.length
    · rw [if_pos ⟨hs, h⟩]
      simp only [List.length_cons]
      rw [ih (l.drop s) (by simp [List.length_drop]; omega)]
      simp only [List.length_drop]
      conv_rhs => rw [show l.length = (l.length - s) + s by omega]
      rw [Nat.add_div_right _ hs]
    · rw [if_neg (by tauto)]
      simp [Nat.div_eq_of_lt (by omega : l.length < s)]

theorem chunksExact_length (s : Nat) (hs : 0 < s) (l : List Nat) :
    (chunksExact s l).length = l.length / s :=
  chunksExactGo_length s hs l.length l (Nat.le_refl _)

theorem chunksExactGo_mem (s : Nat) :
    ∀ (fuel : Nat) (l c : List Nat), c ∈ chunksExactGo s fuel l →
      c.length = s := by
  intro fuel
  induction fuel with
  | zero => intro l c hc; simp [chunksExactGo] at hc
  | succ n ih =>
    intro l c hc
    rw [chunksExactGo] at hc
    by_cases h : 0 < s ∧ s ≤ l.length
    · rw [if_pos h] at hc
      rcases List.mem_cons.mp hc with h1 | h1
      · subst h1; simp [List.length_take]; omega
      · exact ih _ _ h1
    · rw [if_neg h] at hc; simp at hc

theorem chunksExact_mem (s : Nat) (l c : List Nat)
    (hc : c ∈ chunksExact s l) : c.length = s :=
  chunksExactGo_mem s l.length l c hc

theorem filterMap_length_of_isSome {α β : Type} (f : α → Option β) :
    ∀ l : List α, (∀ a ∈ l, (f a).isSome) →
      (l.filterMap f).length = l.length := by
  intro l
  induction l with
  | nil => simp
  | cons a t ih =>
    intro h
    obtain ⟨b, hb⟩ := Option.isSome_iff_exists.mp (h a (List.mem_cons_self a t))
    simp only [List.filterMap_cons, hb, List.length_cons]
    rw [ih (fun x hx => h x (List.mem_cons_of_mem a hx))]

theorem dirent_from_bytes_isSome (c : List Nat) (h : 32 ≤ c.length) :
    (dirent_from_bytes c).isSome := by
  rw [dirent_from_bytes, if_pos h]; rfl

theorem byte_from_bytes_isSome (c : List Nat) (h : 1 ≤ c.length) :
    (byte_from_bytes c).isSome := by
  rw [byte_from_bytes, if_pos h]; rfl

theorem search_go_eq_find (l : List FATDirectoryEntry) (name : List Nat) :
    ∀ (k i : Nat), i + k = l.length →
      search_go l name i k =
        Except.ok ((l.drop i).find? (fun e => e.name == name)) := by
  intro k
  induction k with
  | zero =>
    intro i hi
    rw [search_go, List.drop_eq_nil_of_le (by omega)]
    rfl
  | succ n ih =>
    intro i hi
    have hilt : i < l.length := by omega
    have hsome : l.get? i = some l[i] := by
      rw [List.get?_eq_getElem?]; exact List.getElem?_eq_getElem hilt
    rw [search_go, hsome, List.drop_eq_getElem_cons hilt]
    show (if l[i].name = name then Except.ok (some l[i])
          else search_go l name (i + 1) n) = _
    by_cases h : l[i].name = name
    · rw [if_pos h, List.find?_cons_of_pos _ (by simpa using h)]
    · rw [if_neg h, List.find?_cons_of_neg _ (by simpa using h)]
      exact ih (i + 1) (by omega)

theorem search_go_oob (l : List FATDirectoryEntry) (name : List Nat)
    (hname : ∀ ent ∈ l, ent.name ≠ name) :
    ∀ (k i : Nat), i ≤ l.length → l.length < i + k →
      search_go l name i k = Except.error "index out of bounds: panic" := by
  intro k
  induction k with
  | zero => intro i h1 h2; omega
  | succ n ih =>
    intro i h1 h2
    rw [search_go]
    cases hg : l.get? i with
    | none => rfl
    | some e =>
      have hlt : i < l.length := by
        by_contra hcon
        rw [List.get?_eq_none.mpr (by omega)] at hg
        cases hg
      show (if e.name = name then Except.ok (some e)
            else search_go l name (i + 1) n) = _
      rw [if_neg (hname e (List.get?_mem hg))]
      exact ih (i + 1) (by omega) (by omega)

theorem search_go_error_string (l : List FATDirectoryEntry) (name : List Nat) :
    ∀ (k i : Nat) (msg : String),
      search_go l name i k = Except.error msg →
      msg = "index out of bounds: panic" := by
  intro k
  induction k with
  | zero => intro i msg h; rw [search_go] at h; cases h
  | succ n ih =>
    intro i msg h
    rw [search_go] at h
    cases hg : l.get? i with
    | none => rw [hg] at h; injection h with h; exact h.symm
    | some e =>
      rw [hg] at h
      have h' : (if e.name = name then Except.ok (some e)
          else search_go l name (i + 1) n) = Except.error msg := h
      by_cases he : e.name = name
      · rw [if_pos he] at h'; cases h'
      · rw [if_neg he] at h'; exact ih (i + 1) msg h'

theorem read_sector_error_string {T : Type} (size : Nat)
    (dec : List Nat → Option T) (header : FATBootsector) (disk : List Nat)
    (lba total : Nat) (msg : String)
    (h : read_sector size dec header disk lba total = Except.error msg) :
    msg = "read_sector out of bound" := by
  rw [read_sector_eq] at h
  by_cases hc : lba * header.bytes_per_sector % 4294967296 +
      total * header.bytes_per_sector > disk.length
  · rw [if_pos hc] at h; injection h with h; exact h.symm
  · rw [if_neg hc] at h; cases h

theorem next_cluster_error_string (fat : List Nat) (cluster : Nat)
    (msg : String) (h : next_cluster fat cluster = Except.error msg) :
    msg = "index out of bounds: panic" := by
  rw [next_cluster] at h
  cases h0 : fat.get? (cluster * 3 % 65536 / 2) with
  | none => simp only [h0] at h; injection h with h; exact h.symm
  | some b0 =>
    cases h1 : fat.get? (cluster * 3 % 65536 / 2 + 1) with
    | none => simp only [h0, h1] at h; injection h with h; exact h.symm
    | some b1 =>
      simp only [h0, h1] at h
      by_cases hp : cluster % 2 = 0
      · rw [if_pos hp] at h; cases h
      · rw [if_neg hp] at h; cases h

theorem read_file_go_error_string (bs : FATBootsector) (disk fat : List Nat)
    (rend : Nat) :
    ∀ (fuel cluster : Nat) (output : List Nat) (msg : String),
      read_file_go bs disk fat rend fuel cluster output = Except.error msg →
      msg = "read_file ran out of fuel" ∨ msg = "read_sector out of bound" ∨
        msg = "index out of bounds: panic" := by
  intro fuel
  induction fuel with
  | zero =>
    intro c o msg h
    rw [read_file_go] at h; injection h with h; exact Or.inl h.symm
  | succ n ih =>
    intro c o msg h
    rw [read_file_go] at h
    split at h
    · rename_i e heq
      injection h with h
      subst h
      exact Or.inr (Or.inl (read_sector_error_string _ _ _ _ _ _ _ heq))
    · split at h
      · rename_i e heq
        injection h with h
        subst h
        exact Or.inr (Or.inr (next_cluster_error_string _ _ _ heq))
      · split at h
        · cases h
        · exact ih _ _ _ h

theorem lor_shiftLeft_eq_add {a b n : Nat} (h : a < 2 ^ n) :
    a ||| b <<< n = 2 ^ n * b + a := by
  rw [Nat.shiftLeft_eq, Nat.mul_comm b (2 ^ n), Nat.lor_comm]
  exact (Nat.mul_add_lt_is_or h b).symm

/-! The claims. -/

/-- C1: the claim states that `read_root_directory` computes the number of
root-directory sectors as ceiling((32 * root_dir_ent) / bytes_per_sector) so
that a partial final sector is still read and all entries are covered.  The
code uses truncating u16 division.  Concretely, with 512 bytes per sector
and 8 root directory entries (byte size 256, not a multiple of 512) the
reader succeeds with 0 sectors and 0 entries, although the ceiling is 1
sector covering all 8 entries. -/
theorem C1_root_sector_count_truncates :
    read_root_directory [] (mkBoot 512 1 0 0 8 0) = Except.ok ([], 0)
    ∧ ([] : List FATDirectoryEntry).length < (mkBoot 512 1 0 0 8 0).root_dir_ent
    ∧ 32 * (mkBoot 512 1 0 0 8 0).root_dir_ent /
        (mkBoot 512 1 0 0 8 0).bytes_per_sector = 0
    ∧ (32 * (mkBoot 512 1 0 0 8 0).root_dir_ent +
        (mkBoot 512 1 0 0 8 0).bytes_per_sector - 1) /
        (mkBoot 512 1 0 0 8 0).bytes_per_sector = 1 :=
  ⟨by decide, by decide, by decide, by decide⟩

/-- C2: the claim states that the cluster-chain walker terminates exactly
when the resolved next cluster is ≥ 0x0FF8, returning N clusters of data for
an N-cluster chain ending in any marker 0x0FF8..0x0FFF.  The code breaks
only on `cluster > 0x0ff8`, so the one-cluster chain of `stChain8`, whose
FAT link for cluster 2 is exactly the end-of-chain marker 0x0FF8, is not
terminated there: the walker treats 0x0FF8 as a data cluster and fails with
an out-of-bounds sector read instead of returning the single cluster's
4 bytes.  The same chain ending in 0x0FF9 (`stChain9`) does return exactly
one cluster's worth of data. -/
theorem C2_eoc_threshold_off_by_one :
    next_cluster stChain8.fat 2 = Except.ok 0x0FF8
    ∧ read_file stChain8 entryCluster2 3 =
        Except.error "read_sector out of bound"
    ∧ read_file stChain9 entryCluster2 3 = Except.ok [1, 2, 3, 4] :=
  ⟨by decide, by decide, by decide⟩

/-- C3: for a FAT holding bytes `b0` at index `cluster * 3 / 2` and `b1` at
the next index, the next-cluster extraction yields the low 12 bits of the
little-endian word `b0 + 256 * b1` when the cluster is even and that word
shifted right by 4 bits when the cluster is odd. -/
theorem C3_next_cluster_extraction (fat : List Nat) (cluster b0 b1 : Nat)
    (h0 : fat.get? (cluster * 3 % 65536 / 2) = some b0)
    (h1 : fat.get? (cluster * 3 % 65536 / 2 + 1) = some b1)
    (hb0 : b0 < 256) (_hb1 : b1 < 256) :
    next_cluster fat cluster =
      Except.ok (if cluster % 2 = 0 then (b0 + 256 * b1) % 4096
                 else (b0 + 256 * b1) / 16) := by
  rw [next_cluster]
  simp only [h0, h1]
  by_cases hp : cluster % 2 = 0
  · rw [if_pos hp, if_pos hp]
    congr 1
    have hword : b0 ||| b1 <<< 8 = 2 ^ 8 * b1 + b0 :=
      lor_shiftLeft_eq_add (by rw [show (2 : Nat) ^ 8 = 256 from by norm_num]; omega)
    rw [hword, show (4095 : Nat) = 2 ^ 12 - 1 from by norm_num,
      Nat.and_pow_two_sub_one_eq_mod,
      show (2 : Nat) ^ 8 = 256 from by norm_num,
      show (2 : Nat) ^ 12 = 4096 from by norm_num]
    omega
  · rw [if_neg hp, if_neg hp]
    congr 1
    rw [Nat.shiftRight_eq_div_pow, show (2 : Nat) ^ 4 = 16 from by norm_num]
    have hlt : b0 / 16 < 2 ^ 4 := by
      rw [show (2 : Nat) ^ 4 = 16 from by norm_num]; omega
    rw [lor_shiftLeft_eq_add hlt, show (2 : Nat) ^ 4 = 16 from by norm_num]
    omega

/-- C3 witness: with FAT bytes [0x34, 0x12] at index 0 and the even cluster
0, the decoded next cluster is 0x234. -/
theorem C3_witness : next_cluster [0x34, 0x12] 0 = Except.ok 0x234 :=
  (C3_next_cluster_extraction [0x34, 0x12] 0 0x34 0x12 (by decide) (by decide)
    (by decide) (by decide)).trans (by decide)

/-- C4 (amended): provided the start offset `lba * bytes_per_sector` does
not overflow a u32, `read_sector` fails with the out-of-bounds error exactly
when `lba * bytes_per_sector + total * bytes_per_sector` exceeds the image
length, and for in-range pairs it succeeds with the records decoded from
exactly that byte range. -/
theorem C4_read_sector_bounds {T : Type} (size : Nat)
    (dec : List Nat → Option T) (header : FATBootsector) (disk : List Nat)
    (lba total : Nat)
    (hw : lba * header.bytes_per_sector < 4294967296) :
    (read_sector size dec header disk lba total =
        Except.error "read_sector out of bound" ↔
      lba * header.bytes_per_sector + total * header.bytes_per_sector >
        disk.length)
    ∧ (lba * header.bytes_per_sector + total * header.bytes_per_sector ≤
        disk.length →
      read_sector size dec header disk lba total =
        Except.ok ((chunksExact size
          ((disk.drop (lba * header.bytes_per_sector)).take
            (total * header.bytes_per_sector))).filterMap dec)) := by
  rw [read_sector_eq, Nat.mod_eq_of_lt hw]
  by_cases hc : lba * header.bytes_per_sector +
      total * header.bytes_per_sector > disk.length
  · rw [if_pos hc]
    exact ⟨⟨fun _ => hc, fun _ => rfl⟩, fun hle => absurd hc (by omega)⟩
  · rw [if_neg hc]
    exact ⟨⟨fun h => Except.noConfusion h, fun h => absurd h hc⟩, fun _ => rfl⟩

/-- C4 witness: on a 3-byte image with 2 bytes per sector, the request
(lba 1, count 1) addresses bytes 2..3 and is rejected as out of bounds. -/
theorem C4_witness :
    read_sector 1 byte_from_bytes (mkBoot 2 1 0 0 0 0) [0, 0, 0] 1 1 =
      Except.error "read_sector out of bound" :=
  ((C4_read_sector_bounds 1 byte_from_bytes (mkBoot 2 1 0 0 0 0) [0, 0, 0]
    1 1 (by decide)).1).mpr (by decide)

/-- C4 counterexample to the unamended claim: at lba 2^31 with 2 bytes per
sector the u32 product `lba * bytes_per_sector` wraps to 0, so the reader
accepts a pair whose true byte range (2^32 bytes) exceeds the empty image's
length instead of failing with the out-of-bounds error. -/
theorem C4_wrap_counterexample :
    read_sector 1 byte_from_bytes (mkBoot 2 1 0 0 0 0) [] 2147483648 0 =
      Except.ok []
    ∧ 2147483648 * (mkBoot 2 1 0 0 0 0).bytes_per_sector +
        0 * (mkBoot 2 1 0 0 0 0).bytes_per_sector >
        ([] : List Nat).length :=
  ⟨by decide, by decide⟩

/-- C5: boot-sector parsing fails with the truncation error exactly when the
image is shorter than the 62-byte fixed header; otherwise it succeeds with
no further validation, decoding the geometry fields little-endian at the
fixed offsets of the layout contract (bytes-per-sector at 11,
sectors-per-cluster at 13, reserved sectors at 14, FAT copy count at 16,
root directory entries at 17, sectors per FAT at 22). -/
theorem C5_bootsector_decode (data : List Nat) :
    (read_bootsector data = Except.error "read_bootsector failed" ↔
      data.length < 62)
    ∧ (62 ≤ data.length →
      ∃ bs, read_bootsector data = Except.ok bs
        ∧ bs.bytes_per_sector = data.getD 11 0 + 256 * data.getD 12 0
        ∧ bs.sector_per_cluster = data.getD 13 0
        ∧ bs.reserved_sectors = data.getD 14 0 + 256 * data.getD 15 0
        ∧ bs.fat_count = data.getD 16 0
        ∧ bs.root_dir_ent = data.getD 17 0 + 256 * data.getD 18 0
        ∧ bs.sector_per_fat = data.getD 22 0 + 256 * data.getD 23 0) := by
  constructor
  · rw [read_bootsector]
    by_cases h : data.length < 62
    · rw [if_pos h]
      exact ⟨fun _ => h, fun _ => rfl⟩
    · rw [if_neg h]
      exact ⟨fun hh => Except.noConfusion hh, fun hh => absurd hh h⟩
  · intro h
    rw [read_bootsector, if_neg (by omega)]
    exact ⟨_, rfl, rfl, rfl, rfl, rfl, rfl, rfl⟩

/-- C5 witness: a 61-byte image is rejected as truncated; the 62-byte image
whose byte at offset `i` is `i` decodes to the little-endian field values at
the contract offsets. -/
theorem C5_witness :
    read_bootsector (List.range 61) = Except.error "read_bootsector failed"
    ∧ ∃ bs, read_bootsector (List.range 62) = Except.ok bs
        ∧ bs.bytes_per_sector = 11 + 256 * 12
        ∧ bs.sector_per_cluster = 13
        ∧ bs.reserved_sectors = 14 + 256 * 15
        ∧ bs.fat_count = 16
        ∧ bs.root_dir_ent = 17 + 256 * 18
        ∧ bs.sector_per_fat = 22 + 256 * 23 := by
  constructor
  · exact (C5_bootsector_decode (List.range 61)).1.mpr (by decide)
  · obtain ⟨bs, h1, h2, h3, h4, h5, h6, h7⟩ :=
      (C5_bootsector_decode (List.range 62)).2 (by decide)
    exact ⟨bs, h1, by rw [h2]; decide, by rw [h3]; decide, by rw [h4]; decide,
      by rw [h5]; decide, by rw [h6]; decide, by rw [h7]; decide⟩

/-- C6: when the decoded root directory holds exactly `root_dir_ent`
entries, `search_file` is the linear first-match scan: it returns the first
entry whose 11-byte padded name equals the query, and `none` when no entry
matches. -/
theorem C6_search_first_match (st : FAT12) (name : List Nat)
    (h : st.rootdir.length = st.bootsector.root_dir_ent) :
    search_file st name =
      Except.ok (st.rootdir.find? (fun e => e.name == name)) := by
  rw [search_file, ← h]
  simpa using search_go_eq_find st.rootdir name st.rootdir.length 0 (by omega)

/-- C6 witness: a root directory containing `TEST    TXT` (cluster 5) yields
that entry for the query `TEST    TXT` and not-found for `NOPE    TXT`. -/
theorem C6_witness :
    search_file stLookup testName = Except.ok (some entryTest)
    ∧ search_file stLookup nopeName = Except.ok none :=
  ⟨(C6_search_first_match stLookup testName (by decide)).trans (by decide),
   (C6_search_first_match stLookup nopeName (by decide)).trans (by decide)⟩

/-- C7: for an in-range request decoded with a record type of positive size
whose decoder succeeds on every full-size chunk, `read_sector` succeeds and
returns exactly `floor(range_length / size)` records, silently dropping any
trailing partial chunk; partial trailing data never causes an error. -/
theorem C7_trailing_partial_dropped {T : Type} (size : Nat)
    (dec : List Nat → Option T) (header : FATBootsector) (disk : List Nat)
    (lba total : Nat) (hsize : 0 < size)
    (hdec : ∀ c : List Nat, c.length = size → (dec c).isSome)
    (hw : lba * header.bytes_per_sector < 4294967296)
    (hr : lba * header.bytes_per_sector + total * header.bytes_per_sector ≤
      disk.length) :
    ∃ out, read_sector size dec header disk lba total = Except.ok out
      ∧ out.length = total * header.bytes_per_sector / size := by
  rw [read_sector_eq, Nat.mod_eq_of_lt hw, if_neg (by omega)]
  refine ⟨_, rfl, ?_⟩
  have hlen : ((disk.drop (lba * header.bytes_per_sector)).take
      (total * header.bytes_per_sector)).length =
      total * header.bytes_per_sector := by
    rw [List.length_take, List.length_drop]
    omega
  rw [filterMap_length_of_isSome dec _
      (fun c hc => hdec c (chunksExact_mem size _ c hc)),
    chunksExact_length size hsize, hlen]

/-- C7 witness: one 48-byte sector decoded as 32-byte directory entries
yields exactly one record, the trailing 16 bytes being dropped without an
error. -/
theorem C7_witness :
    ∃ out, read_sector 32 dirent_from_bytes (mkBoot 48 1 0 0 0 0)
        (List.replicate 48 7) 0 1 = Except.ok out ∧ out.length = 1 := by
  obtain ⟨out, h1, h2⟩ := C7_trailing_partial_dropped 32 dirent_from_bytes
    (mkBoot 48 1 0 0 0 0) (List.replicate 48 7) 0 1 (by decide)
    (fun c hc => dirent_from_bytes_isSome c (by omega)) (by decide) (by decide)
  exact ⟨out, h1, by rw [h2]; decide⟩

/-- C8: the facade.  `parse` surfaces the not-found failure exactly when the
lookup returns no match; a successful `parse` is exactly a successful lookup
composed with a successful cluster-chain walk (so no partial content is ever
delivered alongside a failure); and `FAT12.new` runs load, boot-sector
parse, root-directory read and FAT read in that order, each step's failure
short-circuiting the rest. -/
theorem C8_facade_composition :
    (∀ (st : FAT12) (name : List Nat) (fuel : Nat),
      parse st name fuel = Except.error "Error Parse File" ↔
        search_file st name = Except.ok none)
    ∧ (∀ (st : FAT12) (name : List Nat) (fuel : Nat) (out : List Nat),
      parse st name fuel = Except.ok out →
        ∃ e, search_file st name = Except.ok (some e)
          ∧ read_file st e fuel = Except.ok out)
    ∧ FAT12.new none = Except.error "failed to load file"
    ∧ (∀ (d : List Nat) (msg : String),
        read_bootsector d = Except.error msg →
        FAT12.new (some d) = Except.error msg)
    ∧ (∀ (d : List Nat) (bs : FATBootsector) (msg : String),
        read_bootsector d = Except.ok bs →
        read_root_directory d bs = Except.error msg →
        FAT12.new (some d) = Except.error msg)
    ∧ (∀ (d : List Nat) (bs : FATBootsector)
        (rd : List FATDirectoryEntry × Nat) (msg : String),
        read_bootsector d = Except.ok bs →
        read_root_directory d bs = Except.ok rd →
        read_fat bs d = Except.error msg →
        FAT12.new (some d) = Except.error msg)
    ∧ (∀ (d : List Nat) (bs : FATBootsector)
        (rd : List FATDirectoryEntry × Nat) (fat : List Nat),
        read_bootsector d = Except.ok bs →
        read_root_directory d bs = Except.ok rd →
        read_fat bs d = Except.ok fat →
        FAT12.new (some d) = Except.ok ⟨d, bs, rd.1, rd.2, fat⟩) := by
  refine ⟨?_, ?_, rfl, ?_, ?_, ?_, ?_⟩
  · intro st name fuel
    constructor
    · intro h
      rw [parse] at h
      cases hs : search_file st name with
      | error e =>
        simp only [hs] at h
        injection h with h
        have hmsg := search_go_error_string st.rootdir name
          st.bootsector.root_dir_ent 0 e hs
        rw [h] at hmsg
        exact absurd hmsg (by decide)
      | ok o =>
        cases o with
        | none => rfl
        | some e =>
          simp only [hs] at h
          rcases read_file_go_error_string st.bootsector st.disk st.fat
              st.rootdir_end fuel e.low_16b_entry [] "Error Parse File" h with
            h1 | h1 | h1 <;> exact absurd h1 (by decide)
    · intro hs
      rw [parse, hs]
  · intro st name fuel out h
    rw [parse] at h
    cases hs : search_file st name with
    | error e => simp only [hs] at h; cases h
    | ok o =>
      cases o with
      | none => simp only [hs] at h; cases h
      | some e =>
        simp only [hs] at h
        exact ⟨e, rfl, h⟩
  · intro d msg h
    simp only [FAT12.new, load_image, h]
  · intro d bs msg h1 h2
    simp only [FAT12.new, load_image, h1, h2]
  · intro d bs rd msg h1 h2 h3
    obtain ⟨rootdir, rend⟩ := rd
    simp only [FAT12.new, load_image, h1, h2, h3]
  · intro d bs rd fat h1 h2 h3
    obtain ⟨rootdir, rend⟩ := rd
    simp only [FAT12.new, load_image, h1, h2, h3]

/-- C8 witness: on the fixture whose directory does not contain
`NOPE    TXT`, `parse` fails with exactly the not-found error. -/
theorem C8_witness :
    parse stLookup nopeName 5 = Except.error "Error Parse File" :=
  (C8_facade_composition.1 stLookup nopeName 5).mpr (by decide)

theorem trunc_sectors_lt (B N : Nat) (_hB : 0 < B) (hnd : ¬ B ∣ 32 * N) :
    32 * N / B * B / 32 < N := by
  have hdm := Nat.div_add_mod (32 * N) B
  have hR : 32 * N % B ≠ 0 := fun h => hnd (Nat.dvd_of_mod_eq_zero h)
  have h2 : 32 * N / B * B = 32 * N - 32 * N % B := by
    rw [Nat.mul_comm]; omega
  rw [h2, Nat.div_lt_iff_lt_mul (by norm_num : (0 : Nat) < 32)]
  omega

/-- C9: on any image whose root-directory byte size `32 * root_dir_ent` is
not a multiple of `bytes_per_sector`, a successful root-directory read
returns fewer than `root_dir_ent` entries, and on such a state the lookup
scan indexes past the end of the decoded sequence: for a name matching no
decoded entry, `search_file` hits the out-of-bounds panic instead of
returning not-found. -/
theorem C9_truncated_directory_oob (disk : List Nat)
    (header : FATBootsector) (entries : List FATDirectoryEntry) (e : Nat)
    (hbps : 0 < header.bytes_per_sector)
    (hsize : 32 * header.root_dir_ent < 65536)
    (hnd : ¬ header.bytes_per_sector ∣ 32 * header.root_dir_ent)
    (hok : read_root_directory disk header = Except.ok (entries, e)) :
    entries.length < header.root_dir_ent
    ∧ ∀ (st : FAT12) (name : List Nat), st.rootdir = entries →
        st.bootsector = header → (∀ ent ∈ entries, ent.name ≠ name) →
        search_file st name = Except.error "index out of bounds: panic" := by
  have hmain : entries.length < header.root_dir_ent := by
    simp only [read_root_directory] at hok
    rw [if_neg (by omega)] at hok
    cases hr : read_sector 32 dirent_from_bytes header disk
        ((header.reserved_sectors +
          header.sector_per_fat * header.fat_count) % 65536)
        (32 * header.root_dir_ent % 65536 / header.bytes_per_sector) with
    | error msg =>
      rw [hr] at hok
      exact Except.noConfusion hok
    | ok root =>
      rw [hr] at hok
      injection hok with hok
      injection hok with hok1 hok2
      rw [read_sector_eq] at hr
      rw [Nat.mod_eq_of_lt hsize] at hr
      by_cases hc : ((header.reserved_sectors +
            header.sector_per_fat * header.fat_count) % 65536) *
            header.bytes_per_sector % 4294967296 +
          32 * header.root_dir_ent / header.bytes_per_sector *
            header.bytes_per_sector > disk.length
      · rw [if_pos hc] at hr; cases hr
      · rw [if_neg hc] at hr
        injection hr with hr
        rw [← hok1, ← hr]
        have hlen : ((disk.drop
            (((header.reserved_sectors +
              header.sector_per_fat * header.fat_count) % 65536) *
              header.bytes_per_sector % 4294967296)).take
            (32 * header.root_dir_ent / header.bytes_per_sector *
              header.bytes_per_sector)).length =
            32 * header.root_dir_ent / header.bytes_per_sector *
              header.bytes_per_sector := by
          rw [List.length_take, List.length_drop]
          omega
        rw [filterMap_length_of_isSome dirent_from_bytes _
            (fun c hc' => dirent_from_bytes_isSome c
              (by rw [chunksExact_mem 32 _ c hc'])),
          chunksExact_length 32 (by norm_num), hlen]
        exact trunc_sectors_lt header.bytes_per_sector header.root_dir_ent
          hbps hnd
  refine ⟨hmain, ?_⟩
  intro st name h1 h2 h3
  rw [search_file, h1, h2]
  exact search_go_oob entries name h3 header.root_dir_ent 0 (by omega)
    (by omega)

/-- C9 witness: with 64 bytes per sector and one 32-byte directory entry,
the read succeeds with zero entries and the lookup panics out of bounds. -/
theorem C9_witness :
    ([] : List FATDirectoryEntry).length < hdrOdd.root_dir_ent
    ∧ search_file stOdd testName =
        Except.error "index out of bounds: panic" := by
  have h := C9_truncated_directory_oob [] hdrOdd [] 0 (by decide) (by decide)
    (by decide) (by decide)
  exact ⟨h.1, h.2 stOdd testName rfl rfl (by simp)⟩

/-- C10: `read_file` imposes no precondition that the starting cluster is at
least 2.  For an entry whose `low_16b_entry` is 0 or 1 (as written for an
empty file), the wrapping u16 computation `(cluster - 2) * sector_per_cluster`
makes the first data LBA `rootdir_end + 65534 + cluster` (with one sector
per cluster), and on any image smaller than that huge offset the walk fails
with the generic out-of-bounds sector error rather than returning empty
content or a dedicated error. -/
theorem C10_start_cluster_underflow (st : FAT12) (entry : FATDirectoryEntry)
    (fuel : Nat)
    (hc : entry.low_16b_entry = 0 ∨ entry.low_16b_entry = 1)
    (hspc : st.bootsector.sector_per_cluster = 1)
    (hbps : 0 < st.bootsector.bytes_per_sector)
    (hdisk : st.disk.length <
      (st.rootdir_end + 65534) * st.bootsector.bytes_per_sector)
    (hw : (st.rootdir_end + 65535) * st.bootsector.bytes_per_sector <
      4294967296) :
    data_lba st.rootdir_end entry.low_16b_entry
        st.bootsector.sector_per_cluster =
      st.rootdir_end + 65534 + entry.low_16b_entry
    ∧ read_file st entry (fuel + 1) =
        Except.error "read_sector out of bound" := by
  have hl : data_lba st.rootdir_end entry.low_16b_entry
      st.bootsector.sector_per_cluster =
      st.rootdir_end + 65534 + entry.low_16b_entry := by
    rw [data_lba, hspc]
    rcases hc with h | h <;> rw [h]
  have hle : st.rootdir_end + 65535 ≤
      (st.rootdir_end + 65535) * st.bootsector.bytes_per_sector :=
    Nat.le_mul_of_pos_right _ hbps
  have hmod : data_lba st.rootdir_end entry.low_16b_entry
      st.bootsector.sector_per_cluster % 4294967296 =
      st.rootdir_end + 65534 + entry.low_16b_entry := by
    rw [hl]
    exact Nat.mod_eq_of_lt (by omega)
  have hprod : (st.rootdir_end + 65534 + entry.low_16b_entry) *
      st.bootsector.bytes_per_sector < 4294967296 :=
    Nat.lt_of_le_of_lt
      (Nat.mul_le_mul_right _ (by omega)) hw
  have hlow : (st.rootdir_end + 65534) * st.bootsector.bytes_per_sector ≤
      (st.rootdir_end + 65534 + entry.low_16b_entry) *
        st.bootsector.bytes_per_sector :=
    Nat.mul_le_mul_right _ (by omega)
  have hsec : read_sector 1 byte_from_bytes st.bootsector st.disk
      (data_lba st.rootdir_end entry.low_16b_entry
        st.bootsector.sector_per_cluster % 4294967296)
      st.bootsector.sector_per_cluster =
      Except.error "read_sector out of bound" := by
    rw [read_sector_eq, hmod, Nat.mod_eq_of_lt hprod, if_pos (by omega)]
  refine ⟨hl, ?_⟩
  rw [read_file, read_file_go]
  simp only [hsec]

/-- C10 witness: on a tiny image (1 byte per sector, empty disk) with an
entry whose first cluster is 0, the first data LBA is 65534 and the walk
fails with the out-of-bounds error instead of yielding empty content. -/
theorem C10_witness :
    data_lba stTiny.rootdir_end entryCluster0.low_16b_entry
        stTiny.bootsector.sector_per_cluster = 65534
    ∧ read_file stTiny entryCluster0 3 =
        Except.error "read_sector out of bound" := by
  have h := C10_start_cluster_underflow stTiny entryCluster0 2
    (Or.inl (by decide)) (by decide) (by decide) (by decide) (by decide)
  exact ⟨h.1.trans (by decide), h.2⟩
